import Mathlib

/-!
Verification of the SG-Property-Calculator valuation engine.

The TypeScript source is embedded shallowly over the rationals: every
JavaScript `number` that the claims touch is modelled as a `Rat` (the
decimal literals of the source, such as 0.01 or 4.33, are exact rationals),
booleans as `Bool`, strings as `String`.  Year counts that appear as
exponents of `Math.pow` are modelled as natural numbers, matching the
integer-valued sliders that feed them.  Fallible lookups return `Option`.
-/

namespace SGCalc

/-! ## Policy tables and pure helpers (src/utils/calculations.ts) -/

/-- Band 1 of the buyer stamp duty: 1% on the first $180k (calculations.ts line 7). -/
def bsdBand1 (price : ℚ) : ℚ := if price > 0 then min price 180000 * 0.01 else 0

/-- Band 2: 2% on the next $180k (line 8). -/
def bsdBand2 (price : ℚ) : ℚ := if price > 180000 then min (price - 180000) 180000 * 0.02 else 0

/-- Band 3: 3% on the next $640k (line 9). -/
def bsdBand3 (price : ℚ) : ℚ := if price > 360000 then min (price - 360000) 640000 * 0.03 else 0

/-- Band 4: 4% on the next $500k (line 10). -/
def bsdBand4 (price : ℚ) : ℚ := if price > 1000000 then min (price - 1000000) 500000 * 0.04 else 0

/-- Band 5: 5% on the next $1.5M (line 11). -/
def bsdBand5 (price : ℚ) : ℚ := if price > 1500000 then min (price - 1500000) 1500000 * 0.05 else 0

/-- Band 6: 6% above $3M (line 12). -/
def bsdBand6 (price : ℚ) : ℚ := if price > 3000000 then (price - 3000000) * 0.06 else 0

/-- `calculateBSD` accumulates the six marginal bands (calculations.ts lines 5-14). -/
def calculateBSD (price : ℚ) : ℚ :=
  bsdBand1 price + bsdBand2 price + bsdBand3 price + bsdBand4 price +
    bsdBand5 price + bsdBand6 price

/-- `calculateABSD` (calculations.ts lines 17-31).  At runtime the residency
status is a plain string and the property number a plain number; the
if/else-if/else chain of the source means any unrecognized status falls
into the foreigner branch and any property number other than 1 or 2 into
the third-or-subsequent branch. -/
def calculateABSD (price : ℚ) (status : String) (propertyNumber : ℤ) : ℚ :=
  let rate : ℚ :=
    if status = "citizen" then
      if propertyNumber = 1 then 0 else if propertyNumber = 2 then 0.20 else 0.30
    else if status = "pr" then
      if propertyNumber = 1 then 0.05 else if propertyNumber = 2 then 0.30 else 0.35
    else 0.60
  price * rate

/-- `getABSDRate` (calculations.ts lines 34-46). -/
def getABSDRate (status : String) (propertyNumber : ℤ) : ℚ :=
  if status = "citizen" then
    if propertyNumber = 1 then 0 else if propertyNumber = 2 then 20 else 30
  else if status = "pr" then
    if propertyNumber = 1 then 5 else if propertyNumber = 2 then 30 else 35
  else 60

/-- `calculateLegalFees` (calculations.ts lines 49-54). -/
def calculateLegalFees (price : ℚ) : ℚ :=
  if price ≤ 1000000 then 2500
  else if price ≤ 2000000 then 3000
  else if price ≤ 3000000 then 3500
  else 5000

/-- `calculateSSD` (calculations.ts lines 57-62). -/
def calculateSSD (price yearsHeld : ℚ) : ℚ :=
  if yearsHeld ≥ 3 then 0
  else if yearsHeld < 1 then price * 0.12
  else if yearsHeld < 2 then price * 0.08
  else price * 0.04

/-- `calculatePropertyTax` (calculations.ts lines 65-87). -/
def calculatePropertyTax (annualRent : ℚ) (isOwnerOccupied : Bool) : ℚ :=
  let av := annualRent
  if isOwnerOccupied then
    (if av > 0 then min av 8000 * 0 else 0) +
    (if av > 8000 then min (av - 8000) 22000 * 0.04 else 0) +
    (if av > 30000 then min (av - 30000) 10000 * 0.06 else 0) +
    (if av > 40000 then min (av - 40000) 15000 * 0.10 else 0) +
    (if av > 55000 then min (av - 55000) 15000 * 0.14 else 0) +
    (if av > 70000 then min (av - 70000) 15000 * 0.20 else 0) +
    (if av > 85000 then min (av - 85000) 15000 * 0.26 else 0) +
    (if av > 100000 then (av - 100000) * 0.32 else 0)
  else
    (if av > 0 then min av 30000 * 0.12 else 0) +
    (if av > 30000 then min (av - 30000) 15000 * 0.20 else 0) +
    (if av > 45000 then min (av - 45000) 15000 * 0.28 else 0) +
    (if av > 60000 then (av - 60000) * 0.36 else 0)

/-- `calculateMonthlyPayment` (calculations.ts lines 90-96).  The tenure in
years is a natural number (the exponent of `Math.pow` in the source). -/
def calculateMonthlyPayment (principal annualRate : ℚ) (years : ℕ) : ℚ :=
  if principal = 0 then 0
  else if annualRate = 0 then principal / (years * 12)
  else
    let monthlyRate := annualRate / 100 / 12
    let numPayments := years * 12
    principal * (monthlyRate * (1 + monthlyRate) ^ numPayments) /
      ((1 + monthlyRate) ^ numPayments - 1)

/-- `calculateTDSR` (calculations.ts lines 99-102). -/
def calculateTDSR (monthlyPayment existingDebt monthlyIncome : ℚ) : ℚ :=
  if monthlyIncome = 0 then 0
  else (monthlyPayment + existingDebt) / monthlyIncome * 100

/-- `calculateCpfAccruedInterest` (calculations.ts lines 105-108), for the
whole-year usages of the engine (the exponent of `Math.pow(1.025, years)`). -/
def calculateCpfAccruedInterest (cpfUsed : ℚ) (years : ℕ) : ℚ :=
  if cpfUsed = 0 ∨ years = 0 then 0
  else cpfUsed * ((1.025 : ℚ) ^ years - 1)

/-- `calculateRentalIncomeTax` (calculations.ts lines 111-115). -/
def calculateRentalIncomeTax (grossRent mortgageInterest marginalTaxRate : ℚ) : ℚ :=
  let deemedExpenses := grossRent * 0.15
  let taxableIncome := max 0 (grossRent - deemedExpenses - mortgageInterest)
  taxableIncome * (marginalTaxRate / 100)

/-- The cash-plus-CPF bound of `calculateMaxAffordablePrice`
(calculations.ts lines 139-140). -/
def maxFromCashCpf (cashAvailable cpfOaBalance loanPercentage : ℚ) : ℚ :=
  (cashAvailable + cpfOaBalance * 0.95) / ((100 - loanPercentage) / 100 + 0.05)

/-- The maximum serviceable loan of `calculateMaxAffordablePrice`
(calculations.ts lines 145-149). -/
def maxLoanServiceable (maxMonthlyPayment interestRate : ℚ) (loanTenure : ℕ) : ℚ :=
  let monthlyRate := interestRate / 100 / 12
  let numPayments := loanTenure * 12
  if monthlyRate > 0 then
    maxMonthlyPayment * (1 - (1 + monthlyRate) ^ (-(numPayments : ℤ))) / monthlyRate
  else maxMonthlyPayment * numPayments

/-- The TDSR bound of `calculateMaxAffordablePrice` (calculations.ts line 150). -/
def maxFromTDSR (monthlyIncome existingDebt loanPercentage interestRate : ℚ)
    (loanTenure : ℕ) : ℚ :=
  maxLoanServiceable (monthlyIncome * 0.55 - existingDebt) interestRate loanTenure /
    (loanPercentage / 100)

/-- `calculateMaxAffordablePrice` (calculations.ts lines 130-153). -/
def calculateMaxAffordablePrice (cashAvailable cpfOaBalance monthlyIncome existingDebt
    loanPercentage interestRate : ℚ) (loanTenure : ℕ) : ℚ :=
  if monthlyIncome * 0.55 - existingDebt ≤ 0 then 0
  else
    (⌊min (maxFromCashCpf cashAvailable cpfOaBalance loanPercentage)
        (maxFromTDSR monthlyIncome existingDebt loanPercentage interestRate loanTenure)
        / 50000⌋ : ℚ) * 50000

/-! ## The valuation engine (src/App.tsx, `calculations` memo, lines 61-391)

The input record, restricted to the fields the engine destructures.
`holdingPeriodYears` and `loanTenureYears` are natural numbers: both are
integer-valued in the UI (sliders / whole-year tenures) and appear as
exponents of `Math.pow` in the source, which a rational embedding can only
represent for integer exponents.  `residencyStatus` is the raw runtime
string and `propertyNumber` the raw runtime integer. -/
structure EngineInputs where
  price : ℚ
  residencyStatus : String
  propertyNumber : ℤ
  holdingPeriodYears : ℕ
  annualAppreciation : ℚ
  loanPercentage : ℚ
  loanInterestRate : ℚ
  loanTenureYears : ℕ
  monthlyIncome : ℚ
  monthlyCondoFees : ℚ
  isRentingOut : Bool
  cashAvailable : ℚ
  cpfOaBalance : ℚ
  useCpfForDownpayment : Bool
  useCpfForMonthly : Bool
  existingMonthlyDebt : ℚ
  marginalTaxRate : ℚ
  currentMonthlyRent : ℚ
  expectedMonthlyRental : ℚ
  rentOutRoom : Bool
  roomRentalIncome : ℚ
  agentFeePercent : ℚ
  prevailingInterestRate : ℚ
  loanLockInYears : ℚ
  includeRenovation : Bool
  renovationCost : ℚ
  vacancyWeeksPerYear : ℚ

/-- `bsd` (App.tsx line 74). -/
def bsd (i : EngineInputs) : ℚ := calculateBSD i.price

/-- `absd` (App.tsx line 75). -/
def absd (i : EngineInputs) : ℚ := calculateABSD i.price i.residencyStatus i.propertyNumber

/-- `legalFees` (App.tsx line 77). -/
def legalFees (i : EngineInputs) : ℚ := calculateLegalFees i.price

/-- `valuationFee` (App.tsx line 78). -/
def valuationFee : ℚ := 500

/-- `stampDutyOnMortgage` (App.tsx line 79). -/
def stampDutyOnMortgage (i : EngineInputs) : ℚ := i.price * i.loanPercentage / 100 * 0.004

/-- `fireInsurance` (App.tsx line 80). -/
def fireInsurance : ℚ := 150

/-- `homeInsurance` (App.tsx line 81). -/
def homeInsurance : ℚ := 200

/-- `totalStampDuty` (App.tsx line 84). -/
def totalStampDuty (i : EngineInputs) : ℚ := bsd i + absd i

/-- `totalUpfrontCosts` (App.tsx line 85). -/
def totalUpfrontCosts (i : EngineInputs) : ℚ :=
  totalStampDuty i + legalFees i + valuationFee + stampDutyOnMortgage i +
    (if i.includeRenovation then i.renovationCost else 0)

/-- `loanAmount` (App.tsx line 88). -/
def loanAmount (i : EngineInputs) : ℚ := i.price * (i.loanPercentage / 100)

/-- `downPayment` (App.tsx line 89). -/
def downPayment (i : EngineInputs) : ℚ := i.price - loanAmount i

/-- `monthlyPayment` (App.tsx line 90). -/
def monthlyPayment (i : EngineInputs) : ℚ :=
  calculateMonthlyPayment (loanAmount i) i.loanInterestRate i.loanTenureYears

/-- `totalLoanPaymentsFullTenure` (App.tsx line 91). -/
def totalLoanPaymentsFullTenure (i : EngineInputs) : ℚ :=
  monthlyPayment i * i.loanTenureYears * 12

/-- `totalInterestPaid` (App.tsx line 92). -/
def totalInterestPaid (i : EngineInputs) : ℚ := totalLoanPaymentsFullTenure i - loanAmount i

/-- `minCashDownpayment` (App.tsx line 97). -/
def minCashDownpayment (i : EngineInputs) : ℚ := i.price * 0.05

/-- `maxCpfForDownpayment` (App.tsx line 98). -/
def maxCpfForDownpayment (i : EngineInputs) : ℚ :=
  if i.useCpfForDownpayment then min i.cpfOaBalance (downPayment i - minCashDownpayment i)
  else 0

/-- `cpfUsedForDownpayment` (App.tsx line 99). -/
def cpfUsedForDownpayment (i : EngineInputs) : ℚ := max 0 (maxCpfForDownpayment i)

/-- `cashForDownpayment` (App.tsx line 100). -/
def cashForDownpayment (i : EngineInputs) : ℚ := downPayment i - cpfUsedForDownpayment i

/-- `monthlyFromCpf` (App.tsx line 103). -/
def monthlyFromCpf (i : EngineInputs) : ℚ :=
  if i.useCpfForMonthly then min (monthlyPayment i) (i.cpfOaBalance / (i.loanTenureYears * 12))
  else 0

/-- `totalCpfForMonthly` (App.tsx line 104). -/
def totalCpfForMonthly (i : EngineInputs) : ℚ := monthlyFromCpf i * i.holdingPeriodYears * 12

/-- `totalCpfUsed` (App.tsx line 105). -/
def totalCpfUsed (i : EngineInputs) : ℚ := cpfUsedForDownpayment i + totalCpfForMonthly i

/-- `cpfAccruedInterest` (App.tsx lines 108-109).  The source adds
`calculateCpfAccruedInterest(totalCpfForMonthly / 2, holdingPeriodYears / 2)`;
for odd holding periods that second term raises 1.025 to a half-integer
power, which has no rational value, so it is carried as the explicit
argument `mAcc`.  By the guard in `calculateCpfAccruedInterest` the source
evaluates that term to exactly 0 whenever `totalCpfForMonthly` is 0 (in
particular whenever `useCpfForMonthly` is false), which is how the
theorems below instantiate it. -/
def cpfAccruedInterest (i : EngineInputs) (mAcc : ℚ) : ℚ :=
  calculateCpfAccruedInterest (cpfUsedForDownpayment i) i.holdingPeriodYears + mAcc

/-- `tdsr` (App.tsx line 113). -/
def tdsr (i : EngineInputs) : ℚ :=
  calculateTDSR (monthlyPayment i) i.existingMonthlyDebt i.monthlyIncome

/-- `tdsrOk` (App.tsx line 114). -/
def tdsrOk (i : EngineInputs) : Prop := tdsr i ≤ 55

/-- `cashNeeded` (App.tsx line 118). -/
def cashNeeded (i : EngineInputs) : ℚ := cashForDownpayment i + totalUpfrontCosts i

/-- `canAfford` (App.tsx line 121). -/
def canAfford (i : EngineInputs) : Prop :=
  i.cashAvailable ≥ cashNeeded i ∧ tdsrOk i ∧
    (if i.useCpfForDownpayment then i.cpfOaBalance ≥ cpfUsedForDownpayment i else True)

/-- `monthlyRentalIncome` (App.tsx line 143). -/
def monthlyRentalIncome (i : EngineInputs) : ℚ :=
  if i.isRentingOut then i.expectedMonthlyRental else 0

/-- `annualRentalIncome` (App.tsx line 144). -/
def annualRentalIncome (i : EngineInputs) : ℚ := monthlyRentalIncome i * 12

/-- `monthlyRoomIncome` (App.tsx line 147). -/
def monthlyRoomIncome (i : EngineInputs) : ℚ :=
  if !i.isRentingOut && i.rentOutRoom then i.roomRentalIncome else 0

/-- `annualRoomIncome` (App.tsx line 148). -/
def annualRoomIncome (i : EngineInputs) : ℚ := monthlyRoomIncome i * 12

/-- `monthlySavedRent` (App.tsx line 151). -/
def monthlySavedRent (i : EngineInputs) : ℚ :=
  if !i.isRentingOut then i.currentMonthlyRent else 0

/-- `annualSavedRent` (App.tsx line 152). -/
def annualSavedRent (i : EngineInputs) : ℚ := monthlySavedRent i * 12

/-- `annualValue` (App.tsx line 155). -/
def annualValue (i : EngineInputs) : ℚ := i.expectedMonthlyRental * 12

/-- `annualPropertyTax` (App.tsx line 158). -/
def annualPropertyTax (i : EngineInputs) : ℚ :=
  calculatePropertyTax (annualValue i) (!i.isRentingOut)

/-- `annualMortgageInterest` (App.tsx line 161). -/
def annualMortgageInterest (i : EngineInputs) : ℚ := totalInterestPaid i / i.loanTenureYears

/-- `annualRentalTax` (App.tsx lines 164-166). -/
def annualRentalTax (i : EngineInputs) : ℚ :=
  if i.isRentingOut then
    calculateRentalIncomeTax (annualRentalIncome i) (annualMortgageInterest i) i.marginalTaxRate
  else 0

/-- `annualRoomTax` (App.tsx lines 169-171). -/
def annualRoomTax (i : EngineInputs) : ℚ :=
  if !i.isRentingOut && i.rentOutRoom then
    calculateRentalIncomeTax (annualRoomIncome i) 0 i.marginalTaxRate
  else 0

/-- `totalRentalTax` (App.tsx line 173). -/
def totalRentalTax (i : EngineInputs) : ℚ :=
  (annualRentalTax i + annualRoomTax i) * i.holdingPeriodYears

/-- `annualCondoFees` (App.tsx line 176). -/
def annualCondoFees (i : EngineInputs) : ℚ := i.monthlyCondoFees * 12

/-- `annualRepairs` (App.tsx line 177). -/
def annualRepairs (i : EngineInputs) : ℚ := i.price * 0.01

/-- `annualInsurance` (App.tsx line 178). -/
def annualInsurance : ℚ := fireInsurance + homeInsurance

/-- `annualMaintenance` (App.tsx line 179). -/
def annualMaintenance (i : EngineInputs) : ℚ :=
  annualCondoFees i + annualRepairs i + annualInsurance

/-- `vacancyLoss` (App.tsx line 182). -/
def vacancyLoss (i : EngineInputs) : ℚ :=
  if i.isRentingOut then i.expectedMonthlyRental * i.vacancyWeeksPerYear / 4.33 else 0

/-- `effectiveAnnualRental` (App.tsx line 183). -/
def effectiveAnnualRental (i : EngineInputs) : ℚ := annualRentalIncome i - vacancyLoss i

/-- `annualIncomeFromProperty` (App.tsx lines 187-189). -/
def annualIncomeFromProperty (i : EngineInputs) : ℚ :=
  if i.isRentingOut then effectiveAnnualRental i else annualSavedRent i + annualRoomIncome i

/-- `annualLoanRepayment` (App.tsx line 192). -/
def annualLoanRepayment (i : EngineInputs) : ℚ := monthlyPayment i * 12

/-- `annualNetCashflow` (App.tsx lines 195-199). -/
def annualNetCashflow (i : EngineInputs) : ℚ :=
  annualIncomeFromProperty i - annualPropertyTax i - (annualRentalTax i + annualRoomTax i) -
    annualLoanRepayment i - annualMaintenance i

/-- `futureValue` (App.tsx line 206). -/
def futureValue (i : EngineInputs) : ℚ :=
  i.price * (1 + i.annualAppreciation / 100) ^ i.holdingPeriodYears

/-- `monthlyRate` (App.tsx line 211). -/
def monthlyRate (i : EngineInputs) : ℚ := i.loanInterestRate / 100 / 12

/-- `paymentsRemaining` (App.tsx line 212). -/
def paymentsRemaining (i : EngineInputs) : ℤ :=
  ((i.loanTenureYears : ℤ) - i.holdingPeriodYears) * 12

/-- `remainingLoan` (App.tsx lines 213-215). -/
def remainingLoan (i : EngineInputs) : ℚ :=
  if paymentsRemaining i > 0 ∧ monthlyRate i > 0 then
    monthlyPayment i * (1 - (1 + monthlyRate i) ^ (-paymentsRemaining i)) / monthlyRate i
  else 0

/-- `agentCommission` (App.tsx line 219), as a function of the sale value. -/
def agentCommissionAt (i : EngineInputs) (sale : ℚ) : ℚ := sale * (i.agentFeePercent / 100)

/-- `sellingLegalFees` (App.tsx line 222). -/
def sellingLegalFees : ℚ := 2500

/-- `earlyRepaymentPenalty` (App.tsx lines 225-227). -/
def earlyRepaymentPenalty (i : EngineInputs) : ℚ :=
  if (i.holdingPeriodYears : ℚ) < i.loanLockInYears then remainingLoan i * 0.015 else 0

/-- `ssd` (App.tsx line 230), as a function of the sale value. -/
def ssdAt (i : EngineInputs) (sale : ℚ) : ℚ := calculateSSD sale i.holdingPeriodYears

/-- `totalSavedRent` (App.tsx line 235). -/
def totalSavedRent (i : EngineInputs) : ℚ := annualSavedRent i * i.holdingPeriodYears

/-- `totalIncomeFromProperty` (App.tsx line 237). -/
def totalIncomeFromProperty (i : EngineInputs) : ℚ :=
  annualIncomeFromProperty i * i.holdingPeriodYears

/-- `holdingCosts` (App.tsx line 240). -/
def holdingCosts (i : EngineInputs) : ℚ :=
  (annualPropertyTax i + annualMaintenance i) * i.holdingPeriodYears

/-- `totalLoanPayments` (App.tsx line 241). -/
def totalLoanPayments (i : EngineInputs) : ℚ :=
  annualLoanRepayment i * (min i.holdingPeriodYears i.loanTenureYears : ℕ)

/-- `interestDuringHolding` (App.tsx line 244). -/
def interestDuringHolding (i : EngineInputs) : ℚ :=
  totalLoanPayments i - (loanAmount i - remainingLoan i)

/-- `discountFactor` (App.tsx line 247). -/
def discountFactor (i : EngineInputs) : ℚ := 1 / (1 + i.prevailingInterestRate / 100)

/-- `pvCashflows` (App.tsx lines 250-255): the loop index `year` runs from 1
to the holding period, contributing `annualNetCashflow * discountFactor ^ year`. -/
def pvCashflows (i : EngineInputs) : ℚ :=
  ∑ k in Finset.range i.holdingPeriodYears, annualNetCashflow i * discountFactor i ^ (k + 1)

/-- `fvCashflows` (App.tsx lines 250-255): contribution
`annualNetCashflow * (1 + prevailingInterestRate / 100) ^ (holdingPeriodYears - year)`. -/
def fvCashflows (i : EngineInputs) : ℚ :=
  ∑ k in Finset.range i.holdingPeriodYears,
    annualNetCashflow i * (1 + i.prevailingInterestRate / 100) ^ (i.holdingPeriodYears - (k + 1))

/-- `sellingCosts` (App.tsx line 259), as a function of the sale value. -/
def sellingCostsAt (i : EngineInputs) (sale : ℚ) : ℚ :=
  ssdAt i sale + agentCommissionAt i sale + sellingLegalFees + earlyRepaymentPenalty i

/-- `sellingCosts` at the computed future value (App.tsx line 259). -/
def sellingCosts (i : EngineInputs) : ℚ := sellingCostsAt i (futureValue i)

/-- `salesIncome` (App.tsx line 260), as a function of the sale value. -/
def salesIncomeAt (i : EngineInputs) (sale : ℚ) : ℚ :=
  sale - sellingCostsAt i sale - remainingLoan i

/-- `totalInitialExpense` (App.tsx line 266). -/
def totalInitialExpense (i : EngineInputs) : ℚ := totalUpfrontCosts i + downPayment i

/-- `pvNegativeCashflows` (App.tsx line 267). -/
def pvNegativeCashflows (i : EngineInputs) : ℚ :=
  if pvCashflows i < 0 then |pvCashflows i| else 0

/-- `totalInvestment` (App.tsx line 268). -/
def totalInvestment (i : EngineInputs) : ℚ := totalInitialExpense i + pvNegativeCashflows i

/-- `fvPositiveCashflows` (App.tsx line 271). -/
def fvPositiveCashflows (i : EngineInputs) : ℚ :=
  if fvCashflows i > 0 then fvCashflows i else 0

/-- `totalReturn` (App.tsx line 272), as a function of the sale value. -/
def totalReturnAt (i : EngineInputs) (sale : ℚ) : ℚ :=
  salesIncomeAt i sale + fvPositiveCashflows i +
    (if i.isRentingOut then 0 else totalSavedRent i)

/-- `netProfit` (App.tsx line 278), as a function of the sale value; `mAcc`
is the half-year CPF accrual term described at `cpfAccruedInterest`
(`cpfOpportunityCost`, App.tsx line 263, equals `cpfAccruedInterest`). -/
def netProfitAt (i : EngineInputs) (sale mAcc : ℚ) : ℚ :=
  totalReturnAt i sale - totalInvestment i - cpfAccruedInterest i mAcc

/-- `netProfit` (App.tsx line 278) at the computed future value. -/
def netProfit (i : EngineInputs) (mAcc : ℚ) : ℚ := netProfitAt i (futureValue i) mAcc

/-- `breakEvenPrice` (App.tsx line 285). -/
def breakEvenPrice (i : EngineInputs) : ℚ :=
  i.price + totalUpfrontCosts i + holdingCosts i + interestDuringHolding i +
    sellingCosts i + totalRentalTax i - totalIncomeFromProperty i

/-! ## URL state codec (src/utils/url-state.ts)

`PropertyInputs` carries the full 30-field record with its runtime types:
numbers as `ℚ`, booleans as `Bool`, the two enumerated fields as `String`.
The query string is modelled as the ordered list of key-value pairs held by
`URLSearchParams` (whose wire serialization and re-parsing is an exact
inverse on pairs of distinct keys).  JavaScript turns a number into a
string with `String(value)` and back with `parseFloat`, an exactly
round-tripping pair on every JS number; the embedding abstracts that pair
as `numToStr` / `strToNum`. -/
structure PropertyInputs where
  price : ℚ
  residencyStatus : String
  propertyType : String
  propertyNumber : ℚ
  expectedRentalYield : ℚ
  holdingPeriodYears : ℚ
  annualAppreciation : ℚ
  loanPercentage : ℚ
  loanInterestRate : ℚ
  loanTenureYears : ℚ
  monthlyIncome : ℚ
  monthlyCondoFees : ℚ
  isRentingOut : Bool
  cashAvailable : ℚ
  cpfOaBalance : ℚ
  useCpfForDownpayment : Bool
  useCpfForMonthly : Bool
  existingMonthlyDebt : ℚ
  marginalTaxRate : ℚ
  currentMonthlyRent : ℚ
  expectedMonthlyRental : ℚ
  rentOutRoom : Bool
  roomRentalIncome : ℚ
  annualWorkIncome : ℚ
  agentFeePercent : ℚ
  prevailingInterestRate : ℚ
  loanLockInYears : ℚ
  includeRenovation : Bool
  renovationCost : ℚ
  vacancyWeeksPerYear : ℚ
deriving DecidableEq

/-- `encodeStateToUrl` (url-state.ts lines 40-55): every field is written
under its two-or-three-letter alias from `COMPRESSED_KEYS`, booleans as
"1"/"0", numbers through `numToStr`, strings verbatim. -/
def encodeStateToUrl (numToStr : ℚ → String) (i : PropertyInputs) :
    List (String × String) :=
  [("p", numToStr i.price),
   ("rs", i.residencyStatus),
   ("pt", i.propertyType),
   ("pn", numToStr i.propertyNumber),
   ("ry", numToStr i.expectedRentalYield),
   ("hp", numToStr i.holdingPeriodYears),
   ("aa", numToStr i.annualAppreciation),
   ("lp", numToStr i.loanPercentage),
   ("lr", numToStr i.loanInterestRate),
   ("lt", numToStr i.loanTenureYears),
   ("mi", numToStr i.monthlyIncome),
   ("cf", numToStr i.monthlyCondoFees),
   ("ro", if i.isRentingOut then "1" else "0"),
   ("ca", numToStr i.cashAvailable),
   ("cpf", numToStr i.cpfOaBalance),
   ("cd", if i.useCpfForDownpayment then "1" else "0"),
   ("cm", if i.useCpfForMonthly then "1" else "0"),
   ("ed", numToStr i.existingMonthlyDebt),
   ("tr", numToStr i.marginalTaxRate),
   ("cr", numToStr i.currentMonthlyRent),
   ("er", numToStr i.expectedMonthlyRental),
   ("rr", if i.rentOutRoom then "1" else "0"),
   ("ri", numToStr i.roomRentalIncome),
   ("wi", numToStr i.annualWorkIncome),
   ("af", numToStr i.agentFeePercent),
   ("pr", numToStr i.prevailingInterestRate),
   ("ll", numToStr i.loanLockInYears),
   ("ir", if i.includeRenovation then "1" else "0"),
   ("rc", numToStr i.renovationCost),
   ("vw", numToStr i.vacancyWeeksPerYear)]

/-- One step of `decodeStateFromUrl` (url-state.ts lines 63-79): look the
short key up in `REVERSE_KEYS`; unknown keys are ignored; number fields
take `parseFloat` of the value and keep the previous value when parsing
fails (`NaN`); boolean fields compare the value with "1"; string fields
take the value verbatim. -/
def applyParam (strToNum : String → Option ℚ) (acc : PropertyInputs)
    (kv : String × String) : PropertyInputs :=
  let num (f : ℚ → PropertyInputs) : PropertyInputs :=
    match strToNum kv.2 with
    | some q => f q
    | none => acc
  if kv.1 = "p" then num fun q => { acc with price := q }
  else if kv.1 = "rs" then { acc with residencyStatus := kv.2 }
  else if kv.1 = "pt" then { acc with propertyType := kv.2 }
  else if kv.1 = "pn" then num fun q => { acc with propertyNumber := q }
  else if kv.1 = "ry" then num fun q => { acc with expectedRentalYield := q }
  else if kv.1 = "hp" then num fun q => { acc with holdingPeriodYears := q }
  else if kv.1 = "aa" then num fun q => { acc with annualAppreciation := q }
  else if kv.1 = "lp" then num fun q => { acc with loanPercentage := q }
  else if kv.1 = "lr" then num fun q => { acc with loanInterestRate := q }
  else if kv.1 = "lt" then num fun q => { acc with loanTenureYears := q }
  else if kv.1 = "mi" then num fun q => { acc with monthlyIncome := q }
  else if kv.1 = "cf" then num fun q => { acc with monthlyCondoFees := q }
  else if kv.1 = "ro" then { acc with isRentingOut := kv.2 == "1" }
  else if kv.1 = "ca" then num fun q => { acc with cashAvailable := q }
  else if kv.1 = "cpf" then num fun q => { acc with cpfOaBalance := q }
  else if kv.1 = "cd" then { acc with useCpfForDownpayment := kv.2 == "1" }
  else if kv.1 = "cm" then { acc with useCpfForMonthly := kv.2 == "1" }
  else if kv.1 = "ed" then num fun q => { acc with existingMonthlyDebt := q }
  else if kv.1 = "tr" then num fun q => { acc with marginalTaxRate := q }
  else if kv.1 = "cr" then num fun q => { acc with currentMonthlyRent := q }
  else if kv.1 = "er" then num fun q => { acc with expectedMonthlyRental := q }
  else if kv.1 = "rr" then { acc with rentOutRoom := kv.2 == "1" }
  else if kv.1 = "ri" then num fun q => { acc with roomRentalIncome := q }
  else if kv.1 = "wi" then num fun q => { acc with annualWorkIncome := q }
  else if kv.1 = "af" then num fun q => { acc with agentFeePercent := q }
  else if kv.1 = "pr" then num fun q => { acc with prevailingInterestRate := q }
  else if kv.1 = "ll" then num fun q => { acc with loanLockInYears := q }
  else if kv.1 = "ir" then { acc with includeRenovation := kv.2 == "1" }
  else if kv.1 = "rc" then num fun q => { acc with renovationCost := q }
  else if kv.1 = "vw" then num fun q => { acc with vacancyWeeksPerYear := q }
  else acc

/-- `decodeStateFromUrl` (url-state.ts lines 57-82): start from the
defaults record and fold every key-value pair of the query over it. -/
def decodeStateFromUrl (strToNum : String → Option ℚ)
    (params : List (String × String)) (defaults : PropertyInputs) : PropertyInputs :=
  params.foldl (applyParam strToNum) defaults

/-- The number codec round-trips on every numeric field of the record `i`
(for the JS pair `String` / `parseFloat` this holds for every JS number). -/
def NumRoundTripOn (numToStr : ℚ → String) (strToNum : String → Option ℚ)
    (i : PropertyInputs) : Prop :=
  strToNum (numToStr i.price) = some i.price ∧
  strToNum (numToStr i.propertyNumber) = some i.propertyNumber ∧
  strToNum (numToStr i.expectedRentalYield) = some i.expectedRentalYield ∧
  strToNum (numToStr i.holdingPeriodYears) = some i.holdingPeriodYears ∧
  strToNum (numToStr i.annualAppreciation) = some i.annualAppreciation ∧
  strToNum (numToStr i.loanPercentage) = some i.loanPercentage ∧
  strToNum (numToStr i.loanInterestRate) = some i.loanInterestRate ∧
  strToNum (numToStr i.loanTenureYears) = some i.loanTenureYears ∧
  strToNum (numToStr i.monthlyIncome) = some i.monthlyIncome ∧
  strToNum (numToStr i.monthlyCondoFees) = some i.monthlyCondoFees ∧
  strToNum (numToStr i.cashAvailable) = some i.cashAvailable ∧
  strToNum (numToStr i.cpfOaBalance) = some i.cpfOaBalance ∧
  strToNum (numToStr i.existingMonthlyDebt) = some i.existingMonthlyDebt ∧
  strToNum (numToStr i.marginalTaxRate) = some i.marginalTaxRate ∧
  strToNum (numToStr i.currentMonthlyRent) = some i.currentMonthlyRent ∧
  strToNum (numToStr i.expectedMonthlyRental) = some i.expectedMonthlyRental ∧
  strToNum (numToStr i.roomRentalIncome) = some i.roomRentalIncome ∧
  strToNum (numToStr i.annualWorkIncome) = some i.annualWorkIncome ∧
  strToNum (numToStr i.agentFeePercent) = some i.agentFeePercent ∧
  strToNum (numToStr i.prevailingInterestRate) = some i.prevailingInterestRate ∧
  strToNum (numToStr i.loanLockInYears) = some i.loanLockInYears ∧
  strToNum (numToStr i.renovationCost) = some i.renovationCost ∧
  strToNum (numToStr i.vacancyWeeksPerYear) = some i.vacancyWeeksPerYear

/-! ## Derived schedule views and concrete evaluation inputs -/

/-- The flat SSD rate selected by `calculateSSD` for a given holding time:
the function returns `price` times this rate. -/
def ssdRateOf (yearsHeld : ℚ) : ℚ :=
  if yearsHeld ≥ 3 then 0 else if yearsHeld < 1 then 0.12
  else if yearsHeld < 2 then 0.08 else 0.04

/-- Decimal digits of a natural number, most significant first, with
explicit fuel so that the kernel can evaluate it. -/
def natDigitsAux : ℕ → ℕ → List Char
  | 0, _ => []
  | fuel + 1, n =>
    if n = 0 then [] else natDigitsAux fuel (n / 10) ++ [Char.ofNat (48 + n % 10)]

/-- A concrete number serializer for nonnegative integral rationals,
standing in for the JS `String(value)` in the round-trip witness. -/
def numToStrW (q : ℚ) : String := String.mk (natDigitsAux 20 q.num.toNat)

/-- A concrete number parser for decimal digit strings, standing in for the
JS `parseFloat` in the round-trip witness (empty or non-digit strings
follow the same shape: a fold over the characters). -/
def strToNumW (s : String) : Option ℚ :=
  (s.data.foldl
    (fun acc c =>
      match acc with
      | some n => if c.isDigit then some (n * 10 + (c.toNat - 48)) else none
      | none => none)
    (some (0 : ℕ))).map fun n => (n : ℚ)

/-- A fully populated input record, integral-valued so that the concrete
witness codec round-trips it (values follow `DEFAULT_INPUTS` in
src/utils/constants.ts, with the non-integral rates rounded to integers). -/
def sampleInputs : PropertyInputs where
  price := 1500000
  residencyStatus := "pr"
  propertyType := "private"
  propertyNumber := 1
  expectedRentalYield := 3
  holdingPeriodYears := 5
  annualAppreciation := 3
  loanPercentage := 75
  loanInterestRate := 3
  loanTenureYears := 30
  monthlyIncome := 15000
  monthlyCondoFees := 300
  isRentingOut := false
  cashAvailable := 500000
  cpfOaBalance := 150000
  useCpfForDownpayment := true
  useCpfForMonthly := false
  existingMonthlyDebt := 0
  marginalTaxRate := 15
  currentMonthlyRent := 4400
  expectedMonthlyRental := 4000
  rentOutRoom := false
  roomRentalIncome := 1500
  annualWorkIncome := 185000
  agentFeePercent := 2
  prevailingInterestRate := 3
  loanLockInYears := 2
  includeRenovation := false
  renovationCost := 50000
  vacancyWeeksPerYear := 4

/-- A defaults record that differs from `sampleInputs` in every field, so
the round-trip witness shows every decoded field really came from the
encoded record and not from the defaults. -/
def sampleDefaults : PropertyInputs where
  price := 0
  residencyStatus := "citizen"
  propertyType := "hdb"
  propertyNumber := 0
  expectedRentalYield := 0
  holdingPeriodYears := 0
  annualAppreciation := 0
  loanPercentage := 0
  loanInterestRate := 0
  loanTenureYears := 0
  monthlyIncome := 0
  monthlyCondoFees := 0
  isRentingOut := true
  cashAvailable := 0
  cpfOaBalance := 0
  useCpfForDownpayment := false
  useCpfForMonthly := true
  existingMonthlyDebt := 0
  marginalTaxRate := 0
  currentMonthlyRent := 0
  expectedMonthlyRental := 0
  rentOutRoom := true
  roomRentalIncome := 0
  annualWorkIncome := 0
  agentFeePercent := 0
  prevailingInterestRate := 0
  loanLockInYears := 0
  includeRenovation := true
  renovationCost := 0
  vacancyWeeksPerYear := 0

/-- A concrete engine input: citizen first property, $1M price, 75% LTV at
zero loan interest, renting out at $2000/month, 3-year hold with zero
appreciation and a 2% selling agent fee, no CPF used.  Since
`useCpfForMonthly` is false, `totalCpfForMonthly` is 0 and the source
evaluates the half-year CPF accrual term to exactly 0, so the engine
quantities are evaluated at `mAcc = 0`. -/
def cexBreakEven : EngineInputs where
  price := 1000000
  residencyStatus := "citizen"
  propertyNumber := 1
  holdingPeriodYears := 3
  annualAppreciation := 0
  loanPercentage := 75
  loanInterestRate := 0
  loanTenureYears := 30
  monthlyIncome := 20000
  monthlyCondoFees := 0
  isRentingOut := true
  cashAvailable := 500000
  cpfOaBalance := 0
  useCpfForDownpayment := false
  useCpfForMonthly := false
  existingMonthlyDebt := 0
  marginalTaxRate := 10
  currentMonthlyRent := 0
  expectedMonthlyRental := 2000
  rentOutRoom := false
  roomRentalIncome := 0
  agentFeePercent := 2
  prevailingInterestRate := 0
  loanLockInYears := 2
  includeRenovation := false
  renovationCost := 0
  vacancyWeeksPerYear := 0

/-- Like `cexBreakEven` but with a zero agent fee, satisfying the
restrictions under which the break-even formula is exact. -/
def wBreakEven : EngineInputs :=
  { cexBreakEven with agentFeePercent := 0 }

/-- A zero-interest-rate loan input with principal still outstanding after
the holding period (5 of 30 tenure years elapsed). -/
def wZeroRate : EngineInputs :=
  { cexBreakEven with holdingPeriodYears := 5, loanLockInYears := 0 }

/-- A positive-price input used to witness the appreciation monotonicity. -/
def wAppreciation : EngineInputs :=
  { cexBreakEven with loanInterestRate := 3 }

/-- An input with a positive CPF balance and CPF used for the downpayment,
used to witness the affordability-verdict reduction. -/
def wCpf : EngineInputs :=
  { cexBreakEven with cpfOaBalance := 150000, useCpfForDownpayment := true }


/-! ## Helper lemmas -/

/-- The boolean wire format is invertible: encoding as "1"/"0" and
comparing with "1" gives the original boolean back. -/
theorem boolKeyRT (b : Bool) : ((if b then "1" else "0") == "1") = b := by
  cases b <;> rfl

/-- Decode step for short key "p" (field `price`). -/
theorem stepP (g : String → Option ℚ) (acc : PropertyInputs) (v : String) :
    applyParam g acc ("p", v) =
      (match g v with | some q => { acc with price := q } | none => acc) := by
  simp [applyParam]

/-- Decode step for short key "pn" (field `propertyNumber`). -/
theorem stepPn (g : String → Option ℚ) (acc : PropertyInputs) (v : String) :
    applyParam g acc ("pn", v) =
      (match g v with | some q => { acc with propertyNumber := q } | none => acc) := by
  simp [applyParam]

/-- Decode step for short key "ry" (field `expectedRentalYield`). -/
theorem stepRy (g : String → Option ℚ) (acc : PropertyInputs) (v : String) :
    applyParam g acc ("ry", v) =
      (match g v with | some q => { acc with expectedRentalYield := q } | none => acc) := by
  simp [applyParam]

/-- Decode step for short key "hp" (field `holdingPeriodYears`). -/
theorem stepHp (g : String → Option ℚ) (acc : PropertyInputs) (v : String) :
    applyParam g acc ("hp", v) =
      (match g v with | some q => { acc with holdingPeriodYears := q } | none => acc) := by
  simp [applyParam]

/-- Decode step for short key "aa" (field `annualAppreciation`). -/
theorem stepAa (g : String → Option ℚ) (acc : PropertyInputs) (v : String) :
    applyParam g acc ("aa", v) =
      (match g v with | some q => { acc with annualAppreciation := q } | none => acc) := by
  simp [applyParam]

/-- Decode step for short key "lp" (field `loanPercentage`). -/
theorem stepLp (g : String → Option ℚ) (acc : PropertyInputs) (v : String) :
    applyParam g acc ("lp", v) =
      (match g v with | some q => { acc with loanPercentage := q } | none => acc) := by
  simp [applyParam]

/-- Decode step for short key "lr" (field `loanInterestRate`). -/
theorem stepLr (g : String → Option ℚ) (acc : PropertyInputs) (v : String) :
    applyParam g acc ("lr", v) =
      (match g v with | some q => { acc with loanInterestRate := q } | none => acc) := by
  simp [applyParam]

/-- Decode step for short key "lt" (field `loanTenureYears`). -/
theorem stepLt (g : String → Option ℚ) (acc : PropertyInputs) (v : String) :
    applyParam g acc ("lt", v) =
      (match g v with | some q => { acc with loanTenureYears := q } | none => acc) := by
  simp [applyParam]

/-- Decode step for short key "mi" (field `monthlyIncome`). -/
theorem stepMi (g : String → Option ℚ) (acc : PropertyInputs) (v : String) :
    applyParam g acc ("mi", v) =
      (match g v with | some q => { acc with monthlyIncome := q } | none => acc) := by
  simp [applyParam]

/-- Decode step for short key "cf" (field `monthlyCondoFees`). -/
theorem stepCf (g : String → Option ℚ) (acc : PropertyInputs) (v : String) :
    applyParam g acc ("cf", v) =
      (match g v with | some q => { acc with monthlyCondoFees := q } | none => acc) := by
  simp [applyParam]

/-- Decode step for short key "ca" (field `cashAvailable`). -/
theorem stepCa (g : String → Option ℚ) (acc : PropertyInputs) (v : String) :
    applyParam g acc ("ca", v) =
      (match g v with | some q => { acc with cashAvailable := q } | none => acc) := by
  simp [applyParam]

/-- Decode step for short key "cpf" (field `cpfOaBalance`). -/
theorem stepCpf (g : String → Option ℚ) (acc : PropertyInputs) (v : String) :
    applyParam g acc ("cpf", v) =
      (match g v with | some q => { acc with cpfOaBalance := q } | none => acc) := by
  simp [applyParam]

/-- Decode step for short key "ed" (field `existingMonthlyDebt`). -/
theorem stepEd (g : String → Option ℚ) (acc : PropertyInputs) (v : String) :
    applyParam g acc ("ed", v) =
      (match g v with | some q => { acc with existingMonthlyDebt := q } | none => acc) := by
  simp [applyParam]

/-- Decode step for short key "tr" (field `marginalTaxRate`). -/
theorem stepTr (g : String → Option ℚ) (acc : PropertyInputs) (v : String) :
    applyParam g acc ("tr", v) =
      (match g v with | some q => { acc with marginalTaxRate := q } | none => acc) := by
  simp [applyParam]

/-- Decode step for short key "cr" (field `currentMonthlyRent`). -/
theorem stepCr (g : String → Option ℚ) (acc : PropertyInputs) (v : String) :
    applyParam g acc ("cr", v) =
      (match g v with | some q => { acc with currentMonthlyRent := q } | none => acc) := by
  simp [applyParam]

/-- Decode step for short key "er" (field `expectedMonthlyRental`). -/
theorem stepEr (g : String → Option ℚ) (acc : PropertyInputs) (v : String) :
    applyParam g acc ("er", v) =
      (match g v with | some q => { acc with expectedMonthlyRental := q } | none => acc) := by
  simp [applyParam]

/-- Decode step for short key "ri" (field `roomRentalIncome`). -/
theorem stepRi (g : String → Option ℚ) (acc : PropertyInputs) (v : String) :
    applyParam g acc ("ri", v) =
      (match g v with | some q => { acc with roomRentalIncome := q } | none => acc) := by
  simp [applyParam]

/-- Decode step for short key "wi" (field `annualWorkIncome`). -/
theorem stepWi (g : String → Option ℚ) (acc : PropertyInputs) (v : String) :
    applyParam g acc ("wi", v) =
      (match g v with | some q => { acc with annualWorkIncome := q } | none => acc) := by
  simp [applyParam]

/-- Decode step for short key "af" (field `agentFeePercent`). -/
theorem stepAf (g : String → Option ℚ) (acc : PropertyInputs) (v : String) :
    applyParam g acc ("af", v) =
      (match g v with | some q => { acc with agentFeePercent := q } | none => acc) := by
  simp [applyParam]

/-- Decode step for short key "pr" (field `prevailingInterestRate`). -/
theorem stepPr (g : String → Option ℚ) (acc : PropertyInputs) (v : String) :
    applyParam g acc ("pr", v) =
      (match g v with | some q => { acc with prevailingInterestRate := q } | none => acc) := by
  simp [applyParam]

/-- Decode step for short key "ll" (field `loanLockInYears`). -/
theorem stepLl (g : String → Option ℚ) (acc : PropertyInputs) (v : String) :
    applyParam g acc ("ll", v) =
      (match g v with | some q => { acc with loanLockInYears := q } | none => acc) := by
  simp [applyParam]

/-- Decode step for short key "rc" (field `renovationCost`). -/
theorem stepRc (g : String → Option ℚ) (acc : PropertyInputs) (v : String) :
    applyParam g acc ("rc", v) =
      (match g v with | some q => { acc with renovationCost := q } | none => acc) := by
  simp [applyParam]

/-- Decode step for short key "vw" (field `vacancyWeeksPerYear`). -/
theorem stepVw (g : String → Option ℚ) (acc : PropertyInputs) (v : String) :
    applyParam g acc ("vw", v) =
      (match g v with | some q => { acc with vacancyWeeksPerYear := q } | none => acc) := by
  simp [applyParam]

/-- Decode step for short key "rs" (field `residencyStatus`). -/
theorem stepRs (g : String → Option ℚ) (acc : PropertyInputs) (v : String) :
    applyParam g acc ("rs", v) = { acc with residencyStatus := v } := by
  simp [applyParam]

/-- Decode step for short key "pt" (field `propertyType`). -/
theorem stepPt (g : String → Option ℚ) (acc : PropertyInputs) (v : String) :
    applyParam g acc ("pt", v) = { acc with propertyType := v } := by
  simp [applyParam]

/-- Decode step for short key "ro" (field `isRentingOut`). -/
theorem stepRo (g : String → Option ℚ) (acc : PropertyInputs) (v : String) :
    applyParam g acc ("ro", v) = { acc with isRentingOut := v == "1" } := by
  simp [applyParam]

/-- Decode step for short key "cd" (field `useCpfForDownpayment`). -/
theorem stepCd (g : String → Option ℚ) (acc : PropertyInputs) (v : String) :
    applyParam g acc ("cd", v) = { acc with useCpfForDownpayment := v == "1" } := by
  simp [applyParam]

/-- Decode step for short key "cm" (field `useCpfForMonthly`). -/
theorem stepCm (g : String → Option ℚ) (acc : PropertyInputs) (v : String) :
    applyParam g acc ("cm", v) = { acc with useCpfForMonthly := v == "1" } := by
  simp [applyParam]

/-- Decode step for short key "rr" (field `rentOutRoom`). -/
theorem stepRr (g : String → Option ℚ) (acc : PropertyInputs) (v : String) :
    applyParam g acc ("rr", v) = { acc with rentOutRoom := v == "1" } := by
  simp [applyParam]

/-- Decode step for short key "ir" (field `includeRenovation`). -/
theorem stepIr (g : String → Option ℚ) (acc : PropertyInputs) (v : String) :
    applyParam g acc ("ir", v) = { acc with includeRenovation := v == "1" } := by
  simp [applyParam]

/-- Geometric-series bound used for the total-interest sign: for a
nonnegative rate the annuity numerator dominates the denominator. -/
theorem geom_pow_bound (r : ℚ) (n : ℕ) (hr : 0 ≤ r) :
    (1 + r) ^ n - 1 ≤ n * r * (1 + r) ^ n := by
  induction n with
  | zero => simp
  | succ n ih =>
    have h1 : (0:ℚ) ≤ 1 + r := by linarith
    have h3 : (1:ℚ) ≤ (1 + r) ^ (n + 1) := one_le_pow₀ (by linarith)
    have key1 : ((1 + r) ^ n - 1) * (1 + r) ≤ n * r * (1 + r) ^ n * (1 + r) :=
      mul_le_mul_of_nonneg_right ih h1
    have key2 : r * 1 ≤ r * ((1 + r) ^ (n + 1)) := mul_le_mul_of_nonneg_left h3 hr
    push_cast
    calc (1 + r) ^ (n + 1) - 1 = ((1 + r) ^ n - 1) * (1 + r) + r := by ring
    _ ≤ n * r * (1 + r) ^ n * (1 + r) + r * ((1 + r) ^ (n + 1)) := by
        rw [mul_one] at key2; linarith
    _ = (n + 1) * r * (1 + r) ^ (n + 1) := by ring

/-- `calculateSSD` is the sale price times a flat rate depending only on
the holding time. -/
theorem calculateSSD_eq_rate (price y : ℚ) : calculateSSD price y = price * ssdRateOf y := by
  unfold calculateSSD ssdRateOf
  split_ifs <;> ring

/-- The SSD rate is nonnegative. -/
theorem ssdRateOf_nonneg (y : ℚ) : 0 ≤ ssdRateOf y := by
  unfold ssdRateOf
  split_ifs <;> norm_num

/-- The SSD rate never exceeds the 12% first-year band. -/
theorem ssdRateOf_le (y : ℚ) : ssdRateOf y ≤ 0.12 := by
  unfold ssdRateOf
  split_ifs <;> norm_num

/-- How `netProfit` varies with the sale value: everything except the SSD
and the agent commission is independent of it. -/
theorem netProfitAt_sub (i : EngineInputs) (s1 s2 mAcc : ℚ) :
    netProfitAt i s2 mAcc - netProfitAt i s1 mAcc =
      (s2 - s1) * (1 - ssdRateOf i.holdingPeriodYears - i.agentFeePercent / 100) := by
  simp only [netProfitAt, totalReturnAt, salesIncomeAt, sellingCostsAt, ssdAt,
    agentCommissionAt, calculateSSD_eq_rate]
  ring

/-- With a zero prevailing rate both discounting and compounding collapse
to plain sums of the annual cashflow. -/
theorem pv_fv_zero_rate (i : EngineInputs) (hpr : i.prevailingInterestRate = 0) :
    pvCashflows i = annualNetCashflow i * i.holdingPeriodYears ∧
    fvCashflows i = annualNetCashflow i * i.holdingPeriodYears := by
  constructor
  · simp [pvCashflows, discountFactor, hpr, Finset.sum_const, Finset.card_range,
      nsmul_eq_mul, mul_comm]
  · simp [fvCashflows, hpr, Finset.sum_const, Finset.card_range, nsmul_eq_mul, mul_comm]

/-- With a zero prevailing rate the asymmetric positive/negative folding of
the cashflow streams differs from the plain sum by exactly the negative
part. -/
theorem fv_sub_pv_zero_rate (i : EngineInputs) (hpr : i.prevailingInterestRate = 0) :
    fvPositiveCashflows i = pvNegativeCashflows i +
      annualNetCashflow i * i.holdingPeriodYears := by
  obtain ⟨h1, h2⟩ := pv_fv_zero_rate i hpr
  unfold fvPositiveCashflows pvNegativeCashflows
  rw [h1, h2]
  rcases lt_trichotomy (annualNetCashflow i * (i.holdingPeriodYears : ℚ)) 0 with h | h | h
  · rw [if_neg (not_lt.2 (le_of_lt h)), if_pos h, abs_of_neg h]
    ring
  · simp [h]
  · rw [if_pos h, if_neg (not_lt.2 (le_of_lt h))]
    ring

/-- With CPF disabled for the downpayment no CPF is used for it. -/
theorem cpfUsedForDownpayment_zero (i : EngineInputs)
    (hcd : i.useCpfForDownpayment = false) : cpfUsedForDownpayment i = 0 := by
  simp [cpfUsedForDownpayment, maxCpfForDownpayment, hcd]

/-- With CPF disabled for the downpayment and a zero monthly accrual term
the CPF opportunity cost vanishes (the source guard returns 0 on zero CPF
used). -/
theorem cpfAccruedInterest_zero (i : EngineInputs)
    (hcd : i.useCpfForDownpayment = false) : cpfAccruedInterest i 0 = 0 := by
  simp [cpfAccruedInterest, calculateCpfAccruedInterest, cpfUsedForDownpayment_zero i hcd]

/-- Holding at least three years makes the SSD vanish at every sale value. -/
theorem ssdAt_zero_of_ge_three (i : EngineInputs) (h3 : (3:ℚ) ≤ i.holdingPeriodYears) :
    ∀ s : ℚ, ssdAt i s = 0 := by
  intro s
  simp [ssdAt, calculateSSD, h3]

/-- When the holding period does not exceed the tenure the loan is serviced
for the whole holding period. -/
theorem totalLoanPayments_of_le (i : EngineInputs)
    (hht : i.holdingPeriodYears ≤ i.loanTenureYears) :
    totalLoanPayments i = annualLoanRepayment i * i.holdingPeriodYears := by
  unfold totalLoanPayments
  rw [min_eq_left hht]


/-! ## Claim theorems -/

/-- Claim C1 (amended): the marginal-band accumulation of `calculateBSD`
gives `calculateBSD 180000 = 1800`, `calculateBSD 1000000 = 24600` and
`calculateBSD 1500000 = 44600` (the spec figure of 49600 applies the 5%
band below its own $1.5M threshold; the fourth band is 4%, so the code and
its own schedule give 44600), and every band whose lower threshold is not
exceeded contributes zero. -/
theorem C1_bsd_bands (p1 p2 p3 p4 p5 p6 : ℚ) (h1 : p1 ≤ 0) (h2 : p2 ≤ 180000)
    (h3 : p3 ≤ 360000) (h4 : p4 ≤ 1000000) (h5 : p5 ≤ 1500000) (h6 : p6 ≤ 3000000) :
    calculateBSD 180000 = 1800 ∧ calculateBSD 1000000 = 24600 ∧
    calculateBSD 1500000 = 44600 ∧
    bsdBand1 p1 = 0 ∧ bsdBand2 p2 = 0 ∧ bsdBand3 p3 = 0 ∧ bsdBand4 p4 = 0 ∧
    bsdBand5 p5 = 0 ∧ bsdBand6 p6 = 0 := by
  refine ⟨?_, ?_, ?_, ?_, ?_, ?_, ?_, ?_, ?_⟩
  · norm_num [calculateBSD, bsdBand1, bsdBand2, bsdBand3, bsdBand4, bsdBand5, bsdBand6]
  · norm_num [calculateBSD, bsdBand1, bsdBand2, bsdBand3, bsdBand4, bsdBand5, bsdBand6,
      min_def]
  · norm_num [calculateBSD, bsdBand1, bsdBand2, bsdBand3, bsdBand4, bsdBand5, bsdBand6,
      min_def]
  · rw [bsdBand1, if_neg (not_lt.2 h1)]
  · rw [bsdBand2, if_neg (not_lt.2 h2)]
  · rw [bsdBand3, if_neg (not_lt.2 h3)]
  · rw [bsdBand4, if_neg (not_lt.2 h4)]
  · rw [bsdBand5, if_neg (not_lt.2 h5)]
  · rw [bsdBand6, if_neg (not_lt.2 h6)]

/-- Claim C1, counterexample to the claim as stated: the buyer stamp duty
on a $1.5M purchase is not 49600 (it is 44600: the band above $1M up to
$1.5M is taxed at 4%, not 5%). -/
theorem C1_counterexample : calculateBSD 1500000 ≠ 49600 := by
  norm_num [calculateBSD, bsdBand1, bsdBand2, bsdBand3, bsdBand4, bsdBand5, bsdBand6,
    min_def]

/-- Claim C1, witness: the amended theorem applied at concrete prices. -/
theorem C1_witness :
    calculateBSD 180000 = 1800 ∧ calculateBSD 1000000 = 24600 ∧
    calculateBSD 1500000 = 44600 ∧
    bsdBand1 0 = 0 ∧ bsdBand2 0 = 0 ∧ bsdBand3 0 = 0 ∧ bsdBand4 0 = 0 ∧
    bsdBand5 0 = 0 ∧ bsdBand6 0 = 0 :=
  C1_bsd_bands 0 0 0 0 0 0 le_rfl (by norm_num) (by norm_num) (by norm_num)
    (by norm_num) (by norm_num)

/-- Claim C2: for principal and rate nonnegative and a positive whole-year
tenure, the monthly payment of `calculateMonthlyPayment` is nonnegative and
the implied total interest (payment times number of payments minus the
principal) is nonnegative; in the zero-rate branch
`calculateMonthlyPayment 500000 0 25 = 500000 / 300` exactly. -/
theorem C2_payment_nonneg (principal annualRate : ℚ) (years : ℕ)
    (hp : 0 ≤ principal) (hr : 0 ≤ annualRate) (hy : 1 ≤ years) :
    0 ≤ calculateMonthlyPayment principal annualRate years ∧
    0 ≤ calculateMonthlyPayment principal annualRate years * years * 12 - principal ∧
    calculateMonthlyPayment 500000 0 25 = 500000 / 300 := by
  refine ⟨?_, ?_, by norm_num [calculateMonthlyPayment]⟩
  · unfold calculateMonthlyPayment
    split_ifs with h0 hr0
    · rfl
    · positivity
    · have hrpos : 0 < annualRate := lt_of_le_of_ne hr (Ne.symm hr0)
      have hm : 0 < annualRate / 100 / 12 := by positivity
      have hn : years * 12 ≠ 0 := by omega
      have hD : (0:ℚ) < (1 + annualRate / 100 / 12) ^ (years * 12) - 1 := by
        have := one_lt_pow₀ (a := 1 + annualRate / 100 / 12) (by linarith) hn
        linarith
      have hnum : (0:ℚ) ≤ principal * (annualRate / 100 / 12 *
          (1 + annualRate / 100 / 12) ^ (years * 12)) := by positivity
      exact div_nonneg hnum (le_of_lt hD)
  · unfold calculateMonthlyPayment
    split_ifs with h0 hr0
    · simp [h0]
    · have hyne : ((years : ℚ) * 12) ≠ 0 := by positivity
      have hcancel : principal / (↑years * 12) * ↑years * 12 = principal := by
        field_simp
        ring
      rw [hcancel]
      simp
    · have hrpos : 0 < annualRate := lt_of_le_of_ne hr (Ne.symm hr0)
      set m := annualRate / 100 / 12 with hm_def
      have hm : 0 < m := by rw [hm_def]; positivity
      have hn : years * 12 ≠ 0 := by omega
      set A := (1 + m) ^ (years * 12) with hA_def
      have hD : (0:ℚ) < A - 1 := by
        have := one_lt_pow₀ (a := 1 + m) (by linarith) hn
        rw [hA_def]
        linarith
      have key : A - 1 ≤ (years * 12 : ℕ) * m * A := by
        rw [hA_def]
        exact geom_pow_bound m (years * 12) (le_of_lt hm)
      have expand : principal * (m * A) / (A - 1) * ↑years * 12 - principal =
          principal * ((years * 12 : ℕ) * m * A - (A - 1)) / (A - 1) := by
        field_simp
        ring
      rw [expand]
      apply div_nonneg _ (le_of_lt hD)
      have hsub : (0:ℚ) ≤ (years * 12 : ℕ) * m * A - (A - 1) := by linarith
      positivity

/-- Claim C2, witness: the theorem applied at the zero-rate example. -/
theorem C2_witness :
    0 ≤ calculateMonthlyPayment 500000 0 25 ∧
    0 ≤ calculateMonthlyPayment 500000 0 25 * (25:ℕ) * 12 - 500000 ∧
    calculateMonthlyPayment 500000 0 25 = 500000 / 300 :=
  C2_payment_nonneg 500000 0 25 (by norm_num) le_rfl (by norm_num)

/-- Claim C3 (amended): selling at `breakEvenPrice` makes `netProfit`
exactly zero only under the restrictions that make the formula an exact
inversion: rent-out mode, zero agent fee, a holding of at least three
years (zero SSD) not exceeding the tenure, a zero prevailing discount
rate, and no CPF use.  In general the formula ignores the dependence of
the selling costs on the sale value, discounting of the cashflow stream
and the CPF opportunity cost, and net profit at the break-even sale price
is nonzero (see the counterexample). -/
theorem C3_break_even_restricted (i : EngineInputs)
    (hrent : i.isRentingOut = true)
    (haf : i.agentFeePercent = 0)
    (h3 : 3 ≤ i.holdingPeriodYears)
    (hpr : i.prevailingInterestRate = 0)
    (hcd : i.useCpfForDownpayment = false)
    (hcm : i.useCpfForMonthly = false)
    (hht : i.holdingPeriodYears ≤ i.loanTenureYears) :
    netProfitAt i (breakEvenPrice i) 0 = 0 := by
  have h3q : (3:ℚ) ≤ i.holdingPeriodYears := by exact_mod_cast h3
  have hssd := ssdAt_zero_of_ge_three i h3q
  have hfvp := fv_sub_pv_zero_rate i hpr
  have htlp := totalLoanPayments_of_le i hht
  have hcpf := cpfAccruedInterest_zero i hcd
  simp only [netProfitAt, totalReturnAt, salesIncomeAt, sellingCostsAt, hssd,
    agentCommissionAt, haf, hrent, if_true, breakEvenPrice, sellingCosts, sellingCostsAt,
    interestDuringHolding, htlp, totalInvestment, totalInitialExpense, downPayment,
    hcpf, holdingCosts, totalRentalTax, totalIncomeFromProperty, hfvp, annualNetCashflow]
  ring

/-- Claim C3, counterexample to the claim as stated: on `cexBreakEven`
(rent-out, 3-year hold, zero appreciation, 2% agent fee, no CPF) the
engine evaluated at a sale value equal to `breakEvenPrice` yields a net
profit of 64809/5 = 12961.8, not zero: the break-even formula prices the
selling costs at the projected future value, not at the break-even value
itself. -/
theorem C3_counterexample :
    netProfitAt cexBreakEven (breakEvenPrice cexBreakEven) 0 ≠ 0 := by
  norm_num [cexBreakEven, netProfitAt, totalReturnAt, salesIncomeAt, sellingCostsAt, ssdAt,
    agentCommissionAt, sellingLegalFees, earlyRepaymentPenalty, remainingLoan, sellingCosts,
    monthlyRate, paymentsRemaining, breakEvenPrice, totalUpfrontCosts, totalStampDuty,
    bsd, absd, legalFees, valuationFee, stampDutyOnMortgage, calculateBSD, bsdBand1,
    bsdBand2, bsdBand3, bsdBand4, bsdBand5, bsdBand6, calculateABSD, calculateLegalFees,
    calculateSSD, holdingCosts, annualPropertyTax, annualValue, calculatePropertyTax,
    annualMaintenance, annualCondoFees, annualRepairs, annualInsurance, fireInsurance,
    homeInsurance, interestDuringHolding, totalLoanPayments, annualLoanRepayment,
    monthlyPayment, loanAmount, calculateMonthlyPayment, totalRentalTax, annualRentalTax,
    annualRoomTax, calculateRentalIncomeTax, annualRentalIncome, monthlyRentalIncome,
    annualMortgageInterest, totalInterestPaid, totalLoanPaymentsFullTenure,
    totalIncomeFromProperty, annualIncomeFromProperty, effectiveAnnualRental, vacancyLoss,
    annualRoomIncome, monthlyRoomIncome, annualSavedRent, monthlySavedRent, totalSavedRent,
    totalInvestment, totalInitialExpense, downPayment, pvNegativeCashflows, pvCashflows,
    fvPositiveCashflows, fvCashflows, annualNetCashflow, discountFactor,
    cpfAccruedInterest, calculateCpfAccruedInterest, cpfUsedForDownpayment,
    maxCpfForDownpayment, minCashDownpayment, futureValue, Finset.sum_range_succ,
    min_def, max_def]

/-- Claim C3, witness: the restricted theorem applied at `wBreakEven`. -/
theorem C3_witness : netProfitAt wBreakEven (breakEvenPrice wBreakEven) 0 = 0 :=
  C3_break_even_restricted wBreakEven rfl rfl (by norm_num [wBreakEven, cexBreakEven])
    rfl rfl rfl (by norm_num [wBreakEven, cexBreakEven])

/-- Claim C4 (amended): the policy-table lookups are total functions with
no error path; an out-of-enumeration input is silently coerced, not
rejected: an unrecognized residency string is charged the 60% foreigner
rate and any property number other than 1 or 2 the third-and-subsequent
rate (30% for citizens, 35% for permanent residents). -/
theorem C4_absd_silent_default (price : ℚ) (status : String) (pn : ℤ)
    (hs1 : status ≠ "citizen") (hs2 : status ≠ "pr") (hp1 : pn ≠ 1) (hp2 : pn ≠ 2) :
    calculateABSD price status pn = price * 0.60 ∧
    getABSDRate status pn = 60 ∧
    calculateABSD price "citizen" pn = price * 0.30 ∧
    getABSDRate "citizen" pn = 30 ∧
    calculateABSD price "pr" pn = price * 0.35 ∧
    getABSDRate "pr" pn = 35 := by
  simp [calculateABSD, getABSDRate, hs1, hs2, hp1, hp2]

/-- Claim C4, counterexample to the claim as stated: an unrecognized
residency string does not fail fast; it is silently charged the foreigner
rate (here $600000 of levy on a $1M price). -/
theorem C4_counterexample :
    calculateABSD 1000000 "martian" 1 = 600000 ∧ getABSDRate "martian" 1 = 60 := by
  constructor
  · simp only [calculateABSD, String.reduceEq]
    norm_num
  · simp only [getABSDRate, String.reduceEq]
    norm_num

/-- Claim C4, witness: the amended theorem applied at a concrete
out-of-enumeration input. -/
theorem C4_witness :
    calculateABSD 100 "tourist" 5 = 100 * 0.60 ∧
    getABSDRate "tourist" 5 = 60 ∧
    calculateABSD 100 "citizen" 5 = 100 * 0.30 ∧
    getABSDRate "citizen" 5 = 30 ∧
    calculateABSD 100 "pr" 5 = 100 * 0.35 ∧
    getABSDRate "pr" 5 = 35 :=
  C4_absd_silent_default 100 "tourist" 5 (by decide) (by decide) (by decide) (by decide)

/-- Claim C5: the boundary semantics of `calculateSSD` are strict
less-than: 3.0 held years give zero duty, 2.999 give the 4% band, 0.999
the 12% band, and exactly 1.0 and 2.0 years fall into the 8% and 4% bands
respectively, for every price. -/
theorem C5_ssd_boundaries (price : ℚ) :
    calculateSSD price 3 = 0 ∧
    calculateSSD price 2.999 = price * 0.04 ∧
    calculateSSD price 0.999 = price * 0.12 ∧
    calculateSSD price 1 = price * 0.08 ∧
    calculateSSD price 2 = price * 0.04 := by
  refine ⟨?_, ?_, ?_, ?_, ?_⟩ <;> norm_num [calculateSSD]

/-- Claim C6: decoding the query string produced by `encodeStateToUrl`
with any defaults reproduces the encoded record exactly, field for field,
for every record and every number codec that round-trips the numeric field
values (as the JS `String` / `parseFloat` pair does on every JS number). -/
theorem C6_roundtrip (numToStr : ℚ → String) (strToNum : String → Option ℚ)
    (i defaults : PropertyInputs) (h : NumRoundTripOn numToStr strToNum i) :
    decodeStateFromUrl strToNum (encodeStateToUrl numToStr i) defaults = i := by
  cases i
  unfold NumRoundTripOn at h
  dsimp only at h
  obtain ⟨h1, h2, h3, h4, h5, h6, h7, h8, h9, h10, h11, h12, h13, h14, h15, h16, h17,
    h18, h19, h20, h21, h22, h23⟩ := h
  simp only [encodeStateToUrl, decodeStateFromUrl, List.foldl_cons, List.foldl_nil,
    stepP, stepPn, stepRy, stepHp, stepAa, stepLp, stepLr, stepLt, stepMi, stepCf,
    stepCa, stepCpf, stepEd, stepTr, stepCr, stepEr, stepRi, stepWi, stepAf, stepPr,
    stepLl, stepRc, stepVw, stepRs, stepPt, stepRo, stepCd, stepCm, stepRr, stepIr,
    h1, h2, h3, h4, h5, h6, h7, h8, h9, h10, h11, h12, h13, h14, h15, h16, h17, h18,
    h19, h20, h21, h22, h23, boolKeyRT]

/-- Claim C6, witness: the round trip applied to the concrete record
`sampleInputs` through the concrete digit codec, against defaults that
differ in every field. -/
theorem C6_witness :
    decodeStateFromUrl strToNumW (encodeStateToUrl numToStrW sampleInputs)
      sampleDefaults = sampleInputs :=
  C6_roundtrip numToStrW strToNumW sampleInputs sampleDefaults (by
    unfold NumRoundTripOn
    refine ⟨?_, ?_, ?_, ?_, ?_, ?_, ?_, ?_, ?_, ?_, ?_, ?_, ?_, ?_, ?_, ?_, ?_, ?_,
      ?_, ?_, ?_, ?_, ?_⟩ <;> decide)

/-- Claim C7: with a loan interest rate of exactly zero the remaining-loan
guard `paymentsRemaining > 0 && monthlyRate > 0` fails on its second
conjunct, so the remaining balance is reported as zero even though the
holding period is strictly shorter than the tenure and principal is still
outstanding. -/
theorem C7_zero_rate_remaining (i : EngineInputs)
    (h1 : i.loanInterestRate = 0) (h2 : i.holdingPeriodYears < i.loanTenureYears) :
    remainingLoan i = 0 := by
  simp [remainingLoan, monthlyRate, h1]

/-- Claim C7, witness: a zero-rate loan five years into a thirty-year
tenure reports a zero remaining balance while the loan principal is
positive. -/
theorem C7_witness : remainingLoan wZeroRate = 0 ∧ loanAmount wZeroRate = 750000 :=
  ⟨C7_zero_rate_remaining wZeroRate rfl (by norm_num [wZeroRate, cexBreakEven]),
    by norm_num [loanAmount, wZeroRate, cexBreakEven]⟩

/-- Claim C8: for nonnegative cash, CPF and rate and a loan percentage in
(0, 75], `calculateMaxAffordablePrice` returns 0 when 55% of the monthly
income minus existing debt is nonpositive, and otherwise returns a
nonnegative multiple of $50000 that never exceeds the cash-plus-CPF bound
nor the TDSR bound, namely the minimum of the two bounds rounded down to
the nearest $50000. -/
theorem C8_max_affordable (cashAvailable cpfOaBalance monthlyIncome existingDebt
    loanPercentage interestRate : ℚ) (loanTenure : ℕ)
    (hc : 0 ≤ cashAvailable) (hf : 0 ≤ cpfOaBalance) (hr : 0 ≤ interestRate)
    (hl0 : 0 < loanPercentage) (hl1 : loanPercentage ≤ 75) :
    (monthlyIncome * 0.55 - existingDebt ≤ 0 →
      calculateMaxAffordablePrice cashAvailable cpfOaBalance monthlyIncome existingDebt
        loanPercentage interestRate loanTenure = 0) ∧
    (0 < monthlyIncome * 0.55 - existingDebt →
      0 ≤ calculateMaxAffordablePrice cashAvailable cpfOaBalance monthlyIncome existingDebt
        loanPercentage interestRate loanTenure ∧
      (∃ k : ℕ, calculateMaxAffordablePrice cashAvailable cpfOaBalance monthlyIncome
        existingDebt loanPercentage interestRate loanTenure = 50000 * k) ∧
      calculateMaxAffordablePrice cashAvailable cpfOaBalance monthlyIncome existingDebt
        loanPercentage interestRate loanTenure ≤
          maxFromCashCpf cashAvailable cpfOaBalance loanPercentage ∧
      calculateMaxAffordablePrice cashAvailable cpfOaBalance monthlyIncome existingDebt
        loanPercentage interestRate loanTenure ≤
          maxFromTDSR monthlyIncome existingDebt loanPercentage interestRate loanTenure ∧
      calculateMaxAffordablePrice cashAvailable cpfOaBalance monthlyIncome existingDebt
        loanPercentage interestRate loanTenure =
        (⌊min (maxFromCashCpf cashAvailable cpfOaBalance loanPercentage)
            (maxFromTDSR monthlyIncome existingDebt loanPercentage interestRate loanTenure)
            / 50000⌋ : ℚ) * 50000) := by
  constructor
  · intro h
    rw [calculateMaxAffordablePrice, if_pos h]
  · intro h
    have hne : ¬(monthlyIncome * 0.55 - existingDebt ≤ 0) := not_le.2 h
    set cB := maxFromCashCpf cashAvailable cpfOaBalance loanPercentage with hcB
    set tB := maxFromTDSR monthlyIncome existingDebt loanPercentage interestRate loanTenure
      with htB
    have hres : calculateMaxAffordablePrice cashAvailable cpfOaBalance monthlyIncome
        existingDebt loanPercentage interestRate loanTenure =
        (⌊min cB tB / 50000⌋ : ℚ) * 50000 := by
      rw [calculateMaxAffordablePrice, if_neg hne]
    have hle : (⌊min cB tB / 50000⌋ : ℚ) * 50000 ≤ min cB tB := by
      have hfle : (⌊min cB tB / 50000⌋ : ℚ) ≤ min cB tB / 50000 := Int.floor_le _
      have hmul : (⌊min cB tB / 50000⌋ : ℚ) * 50000 ≤ min cB tB / 50000 * 50000 := by
        linarith
      calc (⌊min cB tB / 50000⌋ : ℚ) * 50000 ≤ min cB tB / 50000 * 50000 := hmul
      _ = min cB tB := by field_simp
    have hcB0 : 0 ≤ cB := by
      rw [hcB, maxFromCashCpf]
      apply div_nonneg (by positivity)
      linarith
    have htB0 : 0 ≤ tB := by
      rw [htB, maxFromTDSR]
      apply div_nonneg _ (by positivity)
      rw [maxLoanServiceable]
      split_ifs with hm
      · apply div_nonneg _ (le_of_lt hm)
        apply mul_nonneg (by linarith)
        have hzle : (1 + interestRate / 100 / 12) ^ (-((loanTenure * 12 : ℕ) : ℤ)) ≤ 1 :=
          zpow_le_one_of_nonpos₀ (by linarith) (by omega)
        linarith
      · positivity
    have hmin0 : 0 ≤ min cB tB := le_min hcB0 htB0
    have hfl0 : 0 ≤ ⌊min cB tB / 50000⌋ := Int.floor_nonneg.2 (by positivity)
    refine ⟨?_, ⟨⌊min cB tB / 50000⌋.toNat, ?_⟩, ?_, ?_, hres⟩
    · rw [hres]
      positivity
    · have hcast : ((⌊min cB tB / 50000⌋.toNat : ℕ) : ℚ) = (⌊min cB tB / 50000⌋ : ℚ) := by
        exact_mod_cast congrArg (fun z : ℤ => (z : ℚ)) (Int.toNat_of_nonneg hfl0)
      rw [hres, hcast]
      ring
    · rw [hres]
      exact le_trans hle (min_le_left _ _)
    · rw [hres]
      exact le_trans hle (min_le_right _ _)

/-- Claim C8, witness: the theorem applied in both regimes — zero income
against existing debt gives 0, and a concrete solvent position stays under
the cash-plus-CPF bound. -/
theorem C8_witness :
    calculateMaxAffordablePrice 0 0 0 5 75 0 30 = 0 ∧
    0 ≤ calculateMaxAffordablePrice 200000 100000 10000 0 75 0 30 ∧
    calculateMaxAffordablePrice 200000 100000 10000 0 75 0 30 ≤
      maxFromCashCpf 200000 100000 75 := by
  refine ⟨(C8_max_affordable 0 0 0 5 75 0 30 le_rfl le_rfl le_rfl (by norm_num)
    (by norm_num)).1 (by norm_num), ?_, ?_⟩
  · exact ((C8_max_affordable 200000 100000 10000 0 75 0 30 (by norm_num) (by norm_num)
      le_rfl (by norm_num) (by norm_num)).2 (by norm_num)).1
  · exact ((C8_max_affordable 200000 100000 10000 0 75 0 30 (by norm_num) (by norm_num)
      le_rfl (by norm_num) (by norm_num)).2 (by norm_num)).2.2.1

/-- Claim C9: holding every other input fixed, a strictly larger
nonnegative appreciation rate strictly increases `futureValue` (for a
positive price and a holding period of at least one year) and does not
decrease `netProfit` (for an agent fee of at most 88%, so that the agent
commission and the at-most-12% SSD cannot together exceed the sale
value). -/
theorem C9_appreciation_mono (i : EngineInputs) (a1 a2 mAcc : ℚ)
    (h0 : 0 ≤ a1) (h12 : a1 < a2) (hp : 0 < i.price) (hh : 1 ≤ i.holdingPeriodYears)
    (haf : i.agentFeePercent ≤ 88) :
    futureValue { i with annualAppreciation := a1 } <
      futureValue { i with annualAppreciation := a2 } ∧
    netProfit { i with annualAppreciation := a1 } mAcc ≤
      netProfit { i with annualAppreciation := a2 } mAcc := by
  have hfv : ∀ a : ℚ, futureValue { i with annualAppreciation := a } =
      i.price * (1 + a / 100) ^ i.holdingPeriodYears := fun a => rfl
  have hbase : (1 + a1 / 100 : ℚ) < 1 + a2 / 100 := by linarith
  have hb0 : (0:ℚ) ≤ 1 + a1 / 100 := by linarith
  have hpow : (1 + a1 / 100 : ℚ) ^ i.holdingPeriodYears <
      (1 + a2 / 100) ^ i.holdingPeriodYears :=
    pow_lt_pow_left₀ hbase hb0 (by omega)
  have hfv_lt : futureValue { i with annualAppreciation := a1 } <
      futureValue { i with annualAppreciation := a2 } := by
    rw [hfv a1, hfv a2]
    exact mul_lt_mul_of_pos_left hpow hp
  refine ⟨hfv_lt, ?_⟩
  have hnp : ∀ a s : ℚ, netProfitAt { i with annualAppreciation := a } s mAcc =
      netProfitAt i s mAcc := fun a s => rfl
  have hcoef : 0 ≤ 1 - ssdRateOf i.holdingPeriodYears - i.agentFeePercent / 100 := by
    have := ssdRateOf_le (i.holdingPeriodYears : ℚ)
    linarith
  have hkey := netProfitAt_sub i (futureValue { i with annualAppreciation := a1 })
    (futureValue { i with annualAppreciation := a2 }) mAcc
  have hprod : 0 ≤ (futureValue { i with annualAppreciation := a2 } -
      futureValue { i with annualAppreciation := a1 }) *
      (1 - ssdRateOf i.holdingPeriodYears - i.agentFeePercent / 100) :=
    mul_nonneg (by linarith) hcoef
  show netProfitAt { i with annualAppreciation := a1 }
      (futureValue { i with annualAppreciation := a1 }) mAcc ≤
    netProfitAt { i with annualAppreciation := a2 }
      (futureValue { i with annualAppreciation := a2 }) mAcc
  rw [hnp a1, hnp a2]
  linarith

/-- Claim C9, witness: the monotonicity applied at `wAppreciation` with
rates 0 and 1. -/
theorem C9_witness :
    futureValue { wAppreciation with annualAppreciation := 0 } <
      futureValue { wAppreciation with annualAppreciation := 1 } ∧
    netProfit { wAppreciation with annualAppreciation := 0 } 0 ≤
      netProfit { wAppreciation with annualAppreciation := 1 } 0 :=
  C9_appreciation_mono wAppreciation 0 1 0 le_rfl (by norm_num)
    (by norm_num [wAppreciation, cexBreakEven]) (by norm_num [wAppreciation, cexBreakEven])
    (by norm_num [wAppreciation, cexBreakEven])

/-- Claim C10: with a nonnegative CPF balance the CPF used for the
downpayment satisfies 0 ≤ cpfUsedForDownpayment ≤ cpfOaBalance, so the
third conjunct of the affordability verdict always holds and `canAfford`
reduces to the cash-sufficiency and TDSR checks alone. -/
theorem C10_cpf_bounds (i : EngineInputs) (h : 0 ≤ i.cpfOaBalance) :
    0 ≤ cpfUsedForDownpayment i ∧ cpfUsedForDownpayment i ≤ i.cpfOaBalance ∧
    (canAfford i ↔ i.cashAvailable ≥ cashNeeded i ∧ tdsr i ≤ 55) := by
  have hb1 : 0 ≤ cpfUsedForDownpayment i := le_max_left 0 _
  have hb2 : cpfUsedForDownpayment i ≤ i.cpfOaBalance := by
    unfold cpfUsedForDownpayment maxCpfForDownpayment
    by_cases hb : i.useCpfForDownpayment
    · rw [if_pos hb]
      exact max_le h (min_le_left _ _)
    · rw [if_neg hb]
      simpa using h
  refine ⟨hb1, hb2, ?_⟩
  unfold canAfford tdsrOk
  constructor
  · rintro ⟨a, b, -⟩
    exact ⟨a, b⟩
  · rintro ⟨a, b⟩
    refine ⟨a, b, ?_⟩
    by_cases hb : i.useCpfForDownpayment
    · rw [if_pos hb]
      exact hb2
    · rw [if_neg hb]
      trivial

/-- Claim C10, witness: the verdict reduction applied at `wCpf`, whose CPF
balance is positive and used for the downpayment. -/
theorem C10_witness :
    0 ≤ cpfUsedForDownpayment wCpf ∧ cpfUsedForDownpayment wCpf ≤ wCpf.cpfOaBalance ∧
    (canAfford wCpf ↔ wCpf.cashAvailable ≥ cashNeeded wCpf ∧ tdsr wCpf ≤ 55) :=
  C10_cpf_bounds wCpf (by norm_num [wCpf, cexBreakEven])

end SGCalc
